import Mathlib

/-!
# Verification of the tetris_rs core engine

Shallow embedding of the simulation core of `src/main.rs` (piece geometry
tables, collision detection, fall projection, row clearing, scoring and the
per-tick update), together with theorems settling the specification claims.

Conventions of the embedding:
* The Rust code stores coordinates as `f32`, but every value that ever flows
  into a coordinate is integral (offsets are integer literals, the spawn
  column is `10 as f32 / 2.0 = 5.0`, and all shifts are by `±1.0`), so
  coordinates are embedded as `Int`.  The Rust `as usize` cast on a
  non-negative float truncates, which on integral values is `Int.toNat`.
* The two `rand::thread_rng().gen_range` draws performed by `Piece::new`
  (kind index in `[0,7)`, rotation state in `[0,4)`) are passed in as
  explicit `Nat` parameters, so spawning is a deterministic function of the
  draws.
* The unbounded `while` loop of `calculate_fall_position` is embedded with a
  fuel parameter fixed at 64, which strictly exceeds the maximal number of
  iterations the loop can perform for any piece built from the offset
  tables (all row offsets lie in `[-2, 1]`, so the loop guard fails at the
  latest once the candidate row exceeds 21).
* `exit(0)` on loss is embedded as a distinguished `gameOver` result that
  carries the board as it was at the moment of exit.
-/

namespace TetrisRs

/-- The 7 tetromino kinds plus the `BLANK` background sentinel
(Rust enum `Tetrimonos`). -/
inductive Tetrimonos
  | I
  | O
  | T
  | S
  | Z
  | J
  | L
  | BLANK
deriving DecidableEq

/-- `GRID_SIZE.0` in the Rust source: number of rows. -/
def GRID_ROWS : Nat := 20

/-- `GRID_SIZE.1` in the Rust source: number of columns. -/
def GRID_COLS : Nat := 10

/-- The per-kind rotation tables (`Piece::generate_positions`): for each of
the 4 rotation states, the 4 relative `(row, col)` offsets of the occupied
cells. Transcribed literally from the Rust match. -/
def generate_positions : Tetrimonos → List (List (Int × Int))
  | .I =>
      [[(-1, -2), (-1, -1), (-1, 0), (-1, 1)],
       [(-2, 0), (-1, 0), (0, 0), (1, 0)],
       [(0, -2), (0, -1), (0, 0), (0, 1)],
       [(-2, -1), (-1, -1), (0, -1), (1, -1)]]
  | .O =>
      [[(-1, -2), (-2, -2), (-1, -1), (-2, -1)],
       [(-1, -2), (-2, -2), (-1, -1), (-2, -1)],
       [(-1, -2), (-2, -2), (-1, -1), (-2, -1)],
       [(-1, -2), (-2, -2), (-1, -1), (-2, -1)]]
  | .T =>
      [[(-1, -2), (-1, -1), (-2, -1), (-1, 0)],
       [(-2, -1), (-1, -1), (0, -1), (-1, 0)],
       [(-1, -2), (-1, -1), (0, -1), (-1, 0)],
       [(-1, -2), (-2, -1), (-1, -1), (0, -1)]]
  | .S =>
      [[(-1, -2), (-1, -1), (-2, -1), (-2, 0)],
       [(-2, -1), (-1, -1), (-1, 0), (0, 0)],
       [(0, -2), (0, -1), (-1, -1), (-1, 0)],
       [(-2, -2), (-1, -2), (-1, -1), (0, -1)]]
  | .Z =>
      [[(-2, -2), (-2, -1), (-1, -1), (-1, 0)],
       [(0, -1), (-1, -1), (-1, 0), (-2, 0)],
       [(-1, -2), (-1, -1), (0, -1), (0, 0)],
       [(0, -2), (-1, -2), (-1, -1), (-2, -1)]]
  | .J =>
      [[(-2, -2), (-1, -2), (-1, -1), (-1, 0)],
       [(0, -1), (-1, -1), (-2, -1), (-2, 0)],
       [(-1, -2), (-1, -1), (-1, 0), (0, 0)],
       [(0, -2), (0, -1), (-1, -1), (-2, -1)]]
  | .L =>
      [[(-1, -2), (-1, -1), (-1, 0), (-2, 0)],
       [(-2, -1), (-1, -1), (0, -1), (0, 0)],
       [(0, -2), (-1, -2), (-1, -1), (-1, 0)],
       [(-2, -2), (-2, -1), (-1, -1), (0, -1)]]
  | .BLANK =>
      [[(0, 0), (0, 0), (0, 0), (0, 0)],
       [(0, 0), (0, 0), (0, 0), (0, 0)],
       [(0, 0), (0, 0), (0, 0), (0, 0)],
       [(0, 0), (0, 0), (0, 0), (0, 0)]]

/-- The playing field (Rust struct `Grid`): a list of rows of cells. -/
structure Grid where
  grid : List (List Tetrimonos)
deriving DecidableEq

/-- `Grid::new()`: 20 rows of 10 `BLANK` cells. -/
def Grid.new : Grid :=
  ⟨List.replicate GRID_ROWS (List.replicate GRID_COLS Tetrimonos.BLANK)⟩

/-- Total cell read `self.environment.grid[i][j]` (indices already cast to
`usize` by the caller); out-of-range reads default to `BLANK` and are shown
never to occur when the bounds guards have passed. -/
def Grid.cell (g : Grid) (i j : Nat) : Tetrimonos :=
  (g.grid.getD i []).getD j Tetrimonos.BLANK

/-- Functional update `grid.grid[i][j] = v` (out-of-range writes are no-ops;
the Rust code only writes in-bounds cells). -/
def Grid.setCell (g : Grid) (i j : Nat) (v : Tetrimonos) : Grid :=
  ⟨g.grid.set i ((g.grid.getD i []).set j v)⟩

/-- `Grid::clean_rows`: keep the rows that contain at least one `BLANK`
cell, count how many rows disappeared, and reinsert that many `BLANK` rows
at the top.  Returns the new grid together with the removed-row count. -/
def Grid.clean_rows (g : Grid) : Grid × Nat :=
  let new_grid := g.grid.filter (fun x => x.any (fun y => y == Tetrimonos.BLANK))
  let num_removed := GRID_ROWS - new_grid.length
  (⟨List.replicate num_removed (List.replicate GRID_COLS Tetrimonos.BLANK) ++ new_grid⟩,
   num_removed)

/-- The active piece (Rust struct `Piece`).  `position` and
`shadow_position` are `(row, col)` pairs, matching the Rust `(y, x)`
ordering.  The `color` field is omitted: it is write-only render state. -/
structure Piece where
  tetrimono : Tetrimonos
  positions : List (List (Int × Int))
  position : Int × Int
  shadow_position : Int × Int
  state : Nat
  environment : Grid
deriving DecidableEq

/-- One cell's test inside `Piece::collides_with_environment`: the cell at
absolute `(i, j)` is out of bounds or occupied.  The grid is read only
behind the four bounds guards, exactly as in the Rust short-circuit
disjunction. -/
def cellBlocked (g : Grid) (i j : Int) : Bool :=
  decide (i < 0) || decide ((GRID_ROWS : Int) ≤ i) ||
  decide (j < 0) || decide ((GRID_COLS : Int) ≤ j) ||
  decide (g.cell i.toNat j.toNat ≠ Tetrimonos.BLANK)

/-- `Piece::collides_with_environment(x, y, state)`: true iff any of the
cells of rotation state `st`, translated by the candidate `(y, x)`, is out
of bounds or occupies a non-`BLANK` board cell. -/
def Piece.collides_with_environment (p : Piece) (x y : Int) (st : Nat) : Bool :=
  (p.positions.getD st []).any (fun q => cellBlocked p.environment (q.1 + y) (q.2 + x))

/-- The `while !collides { y += 1 }; y -= 1` loop of
`Piece::calculate_fall_position`, with fuel.  Fuel 64 (the value used
below) strictly dominates the iteration count for every piece whose
`positions` come from `generate_positions`. -/
def fallSearch (p : Piece) (x : Int) : Nat → Int → Int
  | 0, y => y - 1
  | fuel + 1, y =>
      if p.collides_with_environment x y p.state then y - 1
      else fallSearch p x fuel (y + 1)

/-- `Piece::calculate_fall_position`: drop the candidate row from the
current anchor until collision, back off one row, and store the result as
the shadow (resting projection) anchor. -/
def Piece.calculate_fall_position (p : Piece) : Piece :=
  { p with shadow_position := (fallSearch p p.position.2 64 p.position.1, p.position.2) }

/-- `Piece::rotate`: propose `state + 1 mod 4` at the unchanged anchor;
commit and recompute the shadow only when collision-free. -/
def Piece.rotate (p : Piece) : Piece :=
  let prospective_state := (p.state + 1) % 4
  if p.collides_with_environment p.position.2 p.position.1 prospective_state then p
  else Piece.calculate_fall_position { p with state := prospective_state }

/-- `Piece::shift(dir)` with `dir = (row_delta, col_delta)`: propose the
translated anchor at the unchanged state; commit and recompute the shadow
only when collision-free. -/
def Piece.shift (p : Piece) (dir : Int × Int) : Piece :=
  if p.collides_with_environment (p.position.2 + dir.2) (p.position.1 + dir.1) p.state then p
  else Piece.calculate_fall_position { p with position := (p.position.1 + dir.1, p.position.2 + dir.2) }

/-- The kind produced by `Tetrimonos::try_from(k)` as used in `Piece::new`
(`Err` falls back to `BLANK`); the random draw is `gen_range(0, 7)`, so the
argument is in `[0,7)` and the result is never `BLANK` there. -/
def kindOfIndex : Nat → Tetrimonos
  | 0 => .I
  | 1 => .O
  | 2 => .T
  | 3 => .S
  | 4 => .Z
  | 5 => .J
  | 6 => .L
  | _ => .BLANK

/-- `Piece::new(grid)` with the two RNG draws (`k` for the kind index drawn
from `[0,7)`, `s` for the rotation state drawn from `[0,4)`) passed
explicitly: anchor `(2, GRID_COLS / 2)`, environment `grid`, then an
initial `calculate_fall_position`. -/
def Piece.new (grid : Grid) (k s : Nat) : Piece :=
  let t := kindOfIndex k
  Piece.calculate_fall_position
    { tetrimono := t
      positions := generate_positions t
      position := (2, (GRID_COLS : Int) / 2)
      shadow_position := (0, 0)
      state := s
      environment := grid }

/-- The session state (Rust struct `Tetris`).  `level` is
`Level { number }` (its color is render-only), and the wall-clock
`last_tick` field is external to the embedded state machine. -/
structure Tetris where
  score : Int
  total_lines : Int
  level : Int
  piece : Piece
  last_tetris : Bool
deriving DecidableEq

/-- The grid obtained by writing the active piece's 4 cells, taken at its
shadow anchor, into its environment (the merge half of
`Tetris::assimilate_piece`; `(y + off) as usize` is `Int.toNat`). -/
def Tetris.mergedGrid (t : Tetris) : Grid :=
  (t.piece.positions.getD t.piece.state []).foldl
    (fun g q =>
      g.setCell (t.piece.shadow_position.1 + q.1).toNat
        (t.piece.shadow_position.2 + q.2).toNat t.piece.tetrimono)
    t.piece.environment

/-- `Tetris::assimilate_piece` with the spawn RNG draws passed explicitly:
merge the piece at its shadow anchor, clear full rows, spawn a fresh piece
on the post-clear grid, and return the removed-row count. -/
def Tetris.assimilate_piece (t : Tetris) (k s : Nat) : Tetris × Nat :=
  let cleaned := t.mergedGrid.clean_rows
  ({ t with piece := Piece.new cleaned.1 k s }, cleaned.2)

/-- Result of one elapsed-tick body of `Tetris::update`: either the updated
session, or game over (`exit(0)` in the source) carrying the board as it
stood at the moment of exit. -/
inductive UpdateResult
  | ok (t : Tetris)
  | gameOver (finalBoard : Grid)
deriving DecidableEq

/-- The body of `Tetris::update` once the tick interval has elapsed, with
the spawn RNG draws passed explicitly.  Mirrors the Rust control flow:
lock check, loss check, merge and clear, scoring with the back-to-back
flag, line total and level recompute; otherwise a gravity shift. -/
def Tetris.update (t : Tetris) (k s : Nat) : UpdateResult :=
  if t.piece.position = t.piece.shadow_position then
    if t.piece.collides_with_environment t.piece.shadow_position.2 t.piece.shadow_position.1
        t.piece.state then
      .gameOver t.piece.environment
    else
      let a := t.assimilate_piece k s
      let t1 := a.1
      let rows_reduced := a.2
      let t2 :=
        if 0 < rows_reduced then
          if rows_reduced = 4 ∧ t1.last_tetris then
            { t1 with score := t1.score + 1200 * t1.level, last_tetris := true }
          else if rows_reduced = 4 then
            { t1 with score := t1.score + 800 * t1.level, last_tetris := true }
          else
            { t1 with score := t1.score + 100 * t1.level * (rows_reduced : Int),
                      last_tetris := false }
        else t1
      let new_lines := t2.total_lines + (rows_reduced : Int)
      .ok { t2 with total_lines := new_lines, level := new_lines.tdiv 10 + 1 }
  else
    .ok { t with piece := t.piece.shift (1, 0) }

/-- Post-lock back-to-back flag of an update result, when the session
continues. -/
def UpdateResult.lastTetrisAfter : UpdateResult → Option Bool
  | .ok t => some t.last_tetris
  | .gameOver _ => none

/-- Post-lock score of an update result, when the session continues. -/
def UpdateResult.scoreAfter : UpdateResult → Option Int
  | .ok t => some t.score
  | .gameOver _ => none

/-- The specification's row predicate: a row is full iff every cell is
non-`BLANK`. -/
def rowFull (r : List Tetrimonos) : Bool := r.all (fun c => !(c == Tetrimonos.BLANK))

/-- The `idx`-th absolute cell tested by the collision check for candidate
`(y, x)` and rotation state `st`. -/
def pieceCell (p : Piece) (x y : Int) (st : Nat) (idx : Nat) : Int × Int :=
  let q := (p.positions.getD st []).getD idx (0, 0)
  (q.1 + y, q.2 + x)

/-- The specification's per-cell freedom predicate: the cell is inside the
20×10 board and the board holds `BLANK` there. -/
def cellFreeSpec (g : Grid) (c : Int × Int) : Prop :=
  0 ≤ c.1 ∧ c.1 < (GRID_ROWS : Int) ∧ 0 ≤ c.2 ∧ c.2 < (GRID_COLS : Int) ∧
    g.cell c.1.toNat c.2.toNat = Tetrimonos.BLANK

/-! ## Concrete states used by witnesses and counterexamples -/

/-- An otherwise-empty board whose cell `(1, 3)` is occupied, blocking the
canonical I-piece spawn cells (row 1, columns 3–6). -/
def blockedGrid : Grid := Grid.new.setCell 1 3 Tetrimonos.O

/-- An I piece whose anchor sits at the spawn coordinate over
`blockedGrid`, with the shadow set equal to the anchor. -/
def pBlocked : Piece :=
  { tetrimono := .I
    positions := generate_positions .I
    position := (2, 5)
    shadow_position := (2, 5)
    state := 0
    environment := blockedGrid }

/-- A session whose active piece is `pBlocked`. -/
def tBlocked : Tetris :=
  { score := 0, total_lines := 0, level := 1, piece := pBlocked, last_tetris := false }

/-- An O piece resting on the floor of an empty board: its anchor
`(20, 5)` equals its resting projection and is collision-free. -/
def pO : Piece :=
  { tetrimono := .O
    positions := generate_positions .O
    position := (20, 5)
    shadow_position := (20, 5)
    state := 0
    environment := Grid.new }

/-- An O piece against the left wall of an empty board: shifting left
collides. -/
def pShiftBlocked : Piece :=
  { tetrimono := .O
    positions := generate_positions .O
    position := (2, 2)
    shadow_position := (20, 2)
    state := 0
    environment := Grid.new }

/-- A horizontal I piece on the floor of an empty board: rotating to the
vertical state would reach row 21, which is out of bounds. -/
def pRotBlocked : Piece :=
  { tetrimono := .I
    positions := generate_positions .I
    position := (20, 5)
    shadow_position := (20, 5)
    state := 0
    environment := Grid.new }

/-- An O piece in free air over an empty board, used for the successful
shift and rotation witnesses. -/
def pFree : Piece :=
  { tetrimono := .O
    positions := generate_positions .O
    position := (2, 5)
    shadow_position := (20, 5)
    state := 0
    environment := Grid.new }

/-- A session whose O piece rests on the floor of an empty board with the
back-to-back flag armed: the next lock clears no row. -/
def tC2 : Tetris :=
  { score := 0, total_lines := 0, level := 1, piece := pO, last_tetris := true }

/-- Row 19 of the single-clear scenario: full except columns 3 and 4. -/
def rowC5 : List Tetrimonos :=
  [.I, .I, .I, .BLANK, .BLANK, .I, .I, .I, .I, .I]

/-- A board whose bottom row is full except columns 3 and 4. -/
def gridC5 : Grid :=
  ⟨List.replicate 19 (List.replicate GRID_COLS Tetrimonos.BLANK) ++ [rowC5]⟩

/-- An O piece resting at `(20, 5)` over `gridC5`: locking it fills
columns 3–4 of row 19, completing exactly that one row. -/
def pC5 : Piece :=
  { tetrimono := .O
    positions := generate_positions .O
    position := (20, 5)
    shadow_position := (20, 5)
    state := 0
    environment := gridC5 }

/-- Level-1 session about to perform a single-row clear. -/
def tC5 : Tetris :=
  { score := 0, total_lines := 0, level := 1, piece := pC5, last_tetris := false }

/-- A row that is full except column 0. -/
def rowTetris : List Tetrimonos :=
  [.BLANK, .J, .J, .J, .J, .J, .J, .J, .J, .J]

/-- A board whose bottom four rows are full except column 0. -/
def gridTetris : Grid :=
  ⟨List.replicate 16 (List.replicate GRID_COLS Tetrimonos.BLANK) ++
    [rowTetris, rowTetris, rowTetris, rowTetris]⟩

/-- A vertical I piece resting in column 0 over `gridTetris`: locking it
completes rows 16–19 at once. -/
def pTetris : Piece :=
  { tetrimono := .I
    positions := generate_positions .I
    position := (18, 0)
    shadow_position := (18, 0)
    state := 1
    environment := gridTetris }

/-- Level-1 session about to clear 4 rows with the flag off. -/
def tTetris : Tetris :=
  { score := 0, total_lines := 0, level := 1, piece := pTetris, last_tetris := false }

/-- Level-1 session about to clear 4 rows with the flag armed. -/
def tTetrisB2B : Tetris :=
  { score := 800, total_lines := 4, level := 1, piece := pTetris, last_tetris := true }

/-! ## Supporting lemmas -/

/-- Unfolding equation for one loop iteration of the fall search. -/
lemma fallSearch_succ (p : Piece) (x : Int) (fuel : Nat) (y : Int) :
    fallSearch p x (fuel + 1) y =
      if p.collides_with_environment x y p.state then y - 1
      else fallSearch p x fuel (y + 1) := rfl

/-- The fall search never returns less than one row above its start. -/
lemma fallSearch_ge (p : Piece) (x : Int) (fuel : Nat) (y : Int) :
    y - 1 ≤ fallSearch p x fuel y := by
  induction fuel generalizing y with
  | zero => simp [fallSearch]
  | succ n ih =>
    rw [fallSearch_succ]
    split
    · exact le_refl _
    · have h := ih (y + 1)
      omega

/-- When the start row is collision-free the fall search stays at or below
it (the loop body runs at least once). -/
lemma fallSearch_ge_of_not_collides (p : Piece) (x : Int) (fuel : Nat) (y : Int)
    (h : p.collides_with_environment x y p.state = false) :
    y ≤ fallSearch p x (fuel + 1) y := by
  rw [fallSearch_succ, h]
  simp only [Bool.false_eq_true, if_false]
  have hge := fallSearch_ge p x fuel (y + 1)
  omega

/-- `calculate_fall_position` started from a collision-free anchor keeps
the anchor column and lands at or below the anchor row. -/
lemma calculate_fall_position_spec (p : Piece)
    (h : p.collides_with_environment p.position.2 p.position.1 p.state = false) :
    p.calculate_fall_position.shadow_position.2 = p.calculate_fall_position.position.2 ∧
    p.calculate_fall_position.position.1 ≤ p.calculate_fall_position.shadow_position.1 := by
  refine ⟨rfl, ?_⟩
  show p.position.1 ≤ fallSearch p p.position.2 64 p.position.1
  exact fallSearch_ge_of_not_collides p p.position.2 63 p.position.1 h

/-- A single cell's collision test holds exactly when the cell is not free
in the specification's sense (out of the 20×10 bounds, or occupied). -/
lemma cellBlocked_iff_not_free (g : Grid) (i j : Int) :
    cellBlocked g i j = true ↔ ¬ cellFreeSpec g (i, j) := by
  simp only [cellBlocked, Bool.or_eq_true, decide_eq_true_eq, cellFreeSpec, GRID_ROWS, GRID_COLS]
  push_neg
  constructor
  · intro hd hb1 hb2 hb3 hb4
    rcases hd with ((((h | h) | h) | h) | h)
    · omega
    · omega
    · omega
    · omega
    · exact h
  · intro himp
    by_cases hc1 : i < 0
    · exact Or.inl (Or.inl (Or.inl (Or.inl hc1)))
    by_cases hc2 : ((20 : Nat) : Int) ≤ i
    · exact Or.inl (Or.inl (Or.inl (Or.inr hc2)))
    by_cases hc3 : j < 0
    · exact Or.inl (Or.inl (Or.inr hc3))
    by_cases hc4 : ((10 : Nat) : Int) ≤ j
    · exact Or.inl (Or.inr hc4)
    exact Or.inr (himp (by omega) (by omega) (by omega) (by omega))

/-! ## Claims -/

/-- C1: if the active piece's anchor equals its resting projection and
that resting position collides with the board (the spawn position itself
being blocked), the next tick's update ends in `gameOver`, carrying the
board unchanged — no cell of the piece is merged. -/
theorem update_gameOver_of_blocked (t : Tetris) (k s : Nat)
    (h1 : t.piece.position = t.piece.shadow_position)
    (h2 : t.piece.collides_with_environment t.piece.shadow_position.2
      t.piece.shadow_position.1 t.piece.state = true) :
    t.update k s = .gameOver t.piece.environment := by
  simp [Tetris.update, h1, h2]

/-- Witness for C1 at a concrete blocked-spawn session. -/
theorem update_gameOver_of_blocked_witness :
    tBlocked.update 0 0 = .gameOver tBlocked.piece.environment :=
  update_gameOver_of_blocked tBlocked 0 0 (by decide) (by decide)

/-- C6: when the proposed move collides, `shift` and `rotate` leave the
whole piece state exactly as it was. -/
theorem collide_move_noop (p : Piece) (dir : Int × Int) :
    (p.collides_with_environment (p.position.2 + dir.2) (p.position.1 + dir.1) p.state = true →
      p.shift dir = p) ∧
    (p.collides_with_environment p.position.2 p.position.1 ((p.state + 1) % 4) = true →
      p.rotate = p) := by
  constructor
  · intro h
    simp [Piece.shift, h]
  · intro h
    simp [Piece.rotate, h]

/-- Witness for C6: a left shift into the wall and a rotation into the
floor are no-ops on concrete pieces. -/
theorem collide_move_noop_witness :
    pShiftBlocked.shift (0, -1) = pShiftBlocked ∧ pRotBlocked.rotate = pRotBlocked :=
  ⟨(collide_move_noop pShiftBlocked (0, -1)).1 (by decide),
   (collide_move_noop pRotBlocked (0, 0)).2 (by decide)⟩

/-- C9: when the current anchor itself collides, `calculate_fall_position`
stores `(anchor row - 1, anchor column)`: the projection sits strictly
above the anchor, so the two are never equal while the anchor collides. -/
theorem fall_position_of_colliding_anchor (p : Piece)
    (h : p.collides_with_environment p.position.2 p.position.1 p.state = true) :
    p.calculate_fall_position.shadow_position = (p.position.1 - 1, p.position.2) ∧
    p.calculate_fall_position.shadow_position.1 < p.calculate_fall_position.position.1 ∧
    p.calculate_fall_position.shadow_position ≠ p.calculate_fall_position.position := by
  have hs : p.calculate_fall_position.shadow_position = (p.position.1 - 1, p.position.2) := by
    simp [Piece.calculate_fall_position]
    rw [show (64 : Nat) = 63 + 1 from rfl, fallSearch_succ, if_pos h]
  refine ⟨hs, ?_, ?_⟩
  · rw [hs]
    show p.position.1 - 1 < p.position.1
    omega
  · rw [hs]
    intro hc
    have : p.position.1 - 1 = p.position.1 := congrArg Prod.fst hc
    omega

/-- Witness for C9 at the concrete blocked-spawn piece. -/
theorem fall_position_of_colliding_anchor_witness :
    pBlocked.calculate_fall_position.shadow_position = (1, 5) ∧
    pBlocked.calculate_fall_position.shadow_position.1 <
      pBlocked.calculate_fall_position.position.1 ∧
    pBlocked.calculate_fall_position.shadow_position ≠
      pBlocked.calculate_fall_position.position :=
  fall_position_of_colliding_anchor pBlocked (by decide)

/-- C2 counterexample: a lock that clears zero rows with the back-to-back
flag armed keeps the flag set, so the flag is not `false` on a zero
clear as the claim states. -/
theorem lock_zero_clear_flag_counterexample :
    tC2.piece.position = tC2.piece.shadow_position ∧
    (tC2.assimilate_piece 0 0).2 = 0 ∧
    (tC2.update 0 0).lastTetrisAfter = some true := by decide

/-- C2 as amended: after a lock, the back-to-back flag equals
`removed_count == 4` whenever `removed_count > 0`, and keeps its previous
value (it is not touched) when `removed_count == 0`. -/
theorem lock_flag_rule (t : Tetris) (k s n : Nat)
    (h1 : t.piece.position = t.piece.shadow_position)
    (h2 : t.piece.collides_with_environment t.piece.shadow_position.2
      t.piece.shadow_position.1 t.piece.state = false)
    (h3 : (t.assimilate_piece k s).2 = n) :
    (t.update k s).lastTetrisAfter =
      some (if n = 0 then t.last_tetris else decide (n = 4)) := by
  have ht1 : (t.assimilate_piece k s).1.last_tetris = t.last_tetris := rfl
  simp only [Tetris.update, h1, h2, if_true, eq_self_iff_true, Bool.false_eq_true, if_false]
  rw [h3]
  rcases Nat.eq_zero_or_pos n with hn | hn
  · subst hn
    simp [UpdateResult.lastTetrisAfter, ht1]
  · rw [if_pos hn, if_neg (Nat.pos_iff_ne_zero.mp hn)]
    by_cases hn4 : n = 4
    · subst hn4
      by_cases hb : t.last_tetris = true
      · simp [UpdateResult.lastTetrisAfter, ht1, hb]
      · simp [UpdateResult.lastTetrisAfter, ht1, hb]
    · simp [UpdateResult.lastTetrisAfter, hn4]

/-- Witness for the amended C2 at the concrete zero-clear lock. -/
theorem lock_flag_rule_witness :
    (tC2.update 0 0).lastTetrisAfter =
      some (if (0 : Nat) = 0 then tC2.last_tetris else decide ((0 : Nat) = 4)) :=
  lock_flag_rule tC2 0 0 0 (by decide) (by decide) (by decide)

/-- C3 counterexample: the spawn of `Piece::new` with rotation-state draw
1 has rotation state 1, not the initial rotation state 0 — the spawn
rotation state follows the random draw `gen_range(0, 4)`. -/
theorem spawn_state_counterexample :
    (Piece.new Grid.new 0 1).state = 1 ∧ (Piece.new Grid.new 0 1).state ≠ 0 := by decide

/-- C3 as amended: a fresh spawn takes its kind from the uniform draw over
the 7 non-`BLANK` kinds (the index map is injective and never yields
`BLANK`), its rotation state from the uniform draw over `[0,4)` (not the
initial state), its anchor is `(2, board_width/2) = (2, 5)`, and its
collision environment is the supplied (post-clear, in `assimilate_piece`)
board. -/
theorem spawn_piece_spec (g : Grid) (t : Tetris) (k s k2 : Nat) (hk : k < 7) (hk2 : k2 < 7) :
    (Piece.new g k s).tetrimono = kindOfIndex k ∧
    (Piece.new g k s).tetrimono ≠ Tetrimonos.BLANK ∧
    (Piece.new g k s).state = s ∧
    (Piece.new g k s).position = (2, 5) ∧
    (Piece.new g k s).environment = g ∧
    (kindOfIndex k = kindOfIndex k2 → k = k2) ∧
    (t.assimilate_piece k s).1.piece = Piece.new t.mergedGrid.clean_rows.1 k s := by
  refine ⟨rfl, ?_, rfl, ?_, rfl, ?_, rfl⟩
  · show kindOfIndex k ≠ Tetrimonos.BLANK
    interval_cases k <;> decide
  · show ((2 : Int), (GRID_COLS : Int) / 2) = ((2 : Int), (5 : Int))
    decide
  · interval_cases k <;> interval_cases k2 <;> decide

/-- Witness for the amended C3 at concrete draws. -/
theorem spawn_piece_spec_witness :
    (Piece.new Grid.new 0 0).tetrimono = kindOfIndex 0 ∧
    (Piece.new Grid.new 0 0).tetrimono ≠ Tetrimonos.BLANK ∧
    (Piece.new Grid.new 0 0).state = 0 ∧
    (Piece.new Grid.new 0 0).position = (2, 5) ∧
    (Piece.new Grid.new 0 0).environment = Grid.new ∧
    (kindOfIndex 0 = kindOfIndex 1 → 0 = 1) ∧
    (tC2.assimilate_piece 0 0).1.piece = Piece.new tC2.mergedGrid.clean_rows.1 0 0 :=
  spawn_piece_spec Grid.new tC2 0 0 1 (by decide) (by decide)

/-- C4: `clean_rows` returns the number of rows whose every cell is
non-`BLANK`, the new grid is exactly that many `BLANK` rows prepended to
the non-full rows kept in their relative order, and on a board with zero
full rows it returns 0 and leaves the board unchanged. -/
theorem clean_rows_spec (g : Grid) (h : g.grid.length = GRID_ROWS) :
    (g.clean_rows).2 = (g.grid.filter rowFull).length ∧
    (g.clean_rows).1.grid =
      List.replicate (g.grid.filter rowFull).length
        (List.replicate GRID_COLS Tetrimonos.BLANK) ++
      g.grid.filter (fun r => !(rowFull r)) ∧
    ((g.grid.filter rowFull).length = 0 → g.clean_rows = (g, 0)) := by
  have hpt : ∀ r ∈ g.grid,
      (r.any (fun y => y == Tetrimonos.BLANK)) = !(rowFull r) := by
    intro r _
    simp [rowFull, List.any_eq_not_all_not]
  have hfe : g.grid.filter (fun x => x.any (fun y => y == Tetrimonos.BLANK)) =
      g.grid.filter (fun r => !(rowFull r)) := List.filter_congr hpt
  have hlen : g.grid.length = (g.grid.filter rowFull).length +
      (g.grid.filter (fun r => !(rowFull r))).length :=
    List.length_eq_length_filter_add rowFull
  refine ⟨?_, ?_, ?_⟩
  · simp only [Grid.clean_rows, hfe]
    omega
  · simp only [Grid.clean_rows, hfe]
    have hrw : GRID_ROWS - (g.grid.filter (fun r => !(rowFull r))).length =
        (g.grid.filter rowFull).length := by omega
    rw [hrw]
  · intro hz
    have hnil : g.grid.filter rowFull = [] := List.length_eq_zero.mp hz
    have hall : ∀ r ∈ g.grid, ¬ (rowFull r = true) := List.filter_eq_nil_iff.mp hnil
    have hself : g.grid.filter (fun x => x.any (fun y => y == Tetrimonos.BLANK)) = g.grid := by
      rw [hfe]
      refine List.filter_eq_self.mpr ?_
      intro a ha
      simp [hall a ha]
    simp only [Grid.clean_rows, hself, h]
    simp

/-- Witness for C4 on the empty board. -/
theorem clean_rows_spec_witness :
    (Grid.new.clean_rows).2 = (Grid.new.grid.filter rowFull).length ∧
    (Grid.new.clean_rows).1.grid =
      List.replicate (Grid.new.grid.filter rowFull).length
        (List.replicate GRID_COLS Tetrimonos.BLANK) ++
      Grid.new.grid.filter (fun r => !(rowFull r)) ∧
    ((Grid.new.grid.filter rowFull).length = 0 → Grid.new.clean_rows = (Grid.new, 0)) :=
  clean_rows_spec Grid.new (by decide)

/-- C5: on a lock that clears `n > 0` rows the score increases by
`1200 × level` on a back-to-back 4-row clear, by `800 × level` on a 4-row
clear with the flag off, and by `100 × level × n` otherwise. -/
theorem lock_score_rule (t : Tetris) (k s n : Nat)
    (h1 : t.piece.position = t.piece.shadow_position)
    (h2 : t.piece.collides_with_environment t.piece.shadow_position.2
      t.piece.shadow_position.1 t.piece.state = false)
    (h3 : (t.assimilate_piece k s).2 = n) (h4 : 0 < n) :
    (t.update k s).scoreAfter = some (t.score +
      (if n = 4 ∧ t.last_tetris = true then 1200 * t.level
       else if n = 4 then 800 * t.level
       else 100 * t.level * (n : Int))) := by
  have ht1 : (t.assimilate_piece k s).1.last_tetris = t.last_tetris := rfl
  have hsc : (t.assimilate_piece k s).1.score = t.score := rfl
  have hlv : (t.assimilate_piece k s).1.level = t.level := rfl
  simp only [Tetris.update, h1, h2, if_true, eq_self_iff_true, Bool.false_eq_true, if_false]
  rw [h3, if_pos h4]
  by_cases hn4 : n = 4
  · subst hn4
    by_cases hb : t.last_tetris = true
    · simp [UpdateResult.scoreAfter, ht1, hsc, hlv, hb]
    · simp [UpdateResult.scoreAfter, ht1, hsc, hlv, hb]
  · simp [UpdateResult.scoreAfter, hsc, hlv, hn4]

/-- Witness for C5: at level 1, a single-row clear scores 100, a first
4-row clear scores 800, and a back-to-back 4-row clear adds 1200
(800 + 1200 = 2000). -/
theorem lock_score_rule_witness :
    (tC5.update 0 0).scoreAfter = some (tC5.score +
      (if (1 : Nat) = 4 ∧ tC5.last_tetris = true then 1200 * tC5.level
       else if (1 : Nat) = 4 then 800 * tC5.level
       else 100 * tC5.level * ((1 : Nat) : Int))) ∧
    (tTetris.update 0 0).scoreAfter = some (tTetris.score +
      (if (4 : Nat) = 4 ∧ tTetris.last_tetris = true then 1200 * tTetris.level
       else if (4 : Nat) = 4 then 800 * tTetris.level
       else 100 * tTetris.level * ((4 : Nat) : Int))) ∧
    (tTetrisB2B.update 0 0).scoreAfter = some (tTetrisB2B.score +
      (if (4 : Nat) = 4 ∧ tTetrisB2B.last_tetris = true then 1200 * tTetrisB2B.level
       else if (4 : Nat) = 4 then 800 * tTetrisB2B.level
       else 100 * tTetrisB2B.level * ((4 : Nat) : Int))) ∧
    (tC5.update 0 0).scoreAfter = some 100 ∧
    (tTetris.update 0 0).scoreAfter = some 800 ∧
    (tTetrisB2B.update 0 0).scoreAfter = some 2000 :=
  ⟨lock_score_rule tC5 0 0 1 (by decide) (by decide) (by decide) (by decide),
   lock_score_rule tTetris 0 0 4 (by decide) (by decide) (by decide) (by decide),
   lock_score_rule tTetrisB2B 0 0 4 (by decide) (by decide) (by decide) (by decide),
   by decide, by decide, by decide⟩

/-- C7: after a successful (committed) shift or rotation, the recomputed
resting projection keeps the anchor's column and its row is at or below
the anchor's row. -/
theorem shadow_below_anchor_after_success (p : Piece) (dir : Int × Int) :
    (p.collides_with_environment (p.position.2 + dir.2) (p.position.1 + dir.1) p.state = false →
      (p.shift dir).shadow_position.2 = (p.shift dir).position.2 ∧
      (p.shift dir).position.1 ≤ (p.shift dir).shadow_position.1) ∧
    (p.collides_with_environment p.position.2 p.position.1 ((p.state + 1) % 4) = false →
      p.rotate.shadow_position.2 = p.rotate.position.2 ∧
      p.rotate.position.1 ≤ p.rotate.shadow_position.1) := by
  constructor
  · intro h
    have hs : p.shift dir = Piece.calculate_fall_position
        { p with position := (p.position.1 + dir.1, p.position.2 + dir.2) } := by
      simp [Piece.shift, h]
    rw [hs]
    exact calculate_fall_position_spec _ h
  · intro h
    have hs : p.rotate = Piece.calculate_fall_position
        { p with state := (p.state + 1) % 4 } := by
      simp [Piece.rotate, h]
    rw [hs]
    exact calculate_fall_position_spec _ h

/-- Witness for C7: a successful right shift and a successful rotation of
a concrete free piece. -/
theorem shadow_below_anchor_after_success_witness :
    ((pFree.shift (0, 1)).shadow_position.2 = (pFree.shift (0, 1)).position.2 ∧
      (pFree.shift (0, 1)).position.1 ≤ (pFree.shift (0, 1)).shadow_position.1) ∧
    (pFree.rotate.shadow_position.2 = pFree.rotate.position.2 ∧
      pFree.rotate.position.1 ≤ pFree.rotate.shadow_position.1) :=
  ⟨(shadow_below_anchor_after_success pFree (0, 1)).1 (by decide),
   (shadow_below_anchor_after_success pFree (0, 1)).2 (by decide)⟩

/-- C8: the collision test returns `true` iff at least one of the 4 cells
obtained by adding the candidate anchor to the rotation state's offsets is
out of the 20×10 bounds or holds a non-`BLANK` board cell (equivalently,
it returns `false` only when all 4 cells are in bounds and `BLANK`). -/
theorem collides_iff_spec (p : Piece) (x y : Int) (st : Nat)
    (h4 : (p.positions.getD st []).length = 4) :
    p.collides_with_environment x y st = true ↔
      ∃ idx, idx < 4 ∧ ¬ cellFreeSpec p.environment (pieceCell p x y st idx) := by
  rw [Piece.collides_with_environment, List.any_eq_true]
  constructor
  · rintro ⟨q, hq, hblocked⟩
    rcases List.mem_iff_getElem.mp hq with ⟨i, hi, hgi⟩
    refine ⟨i, by omega, ?_⟩
    have hcell : pieceCell p x y st i = (q.1 + y, q.2 + x) := by
      show (((p.positions.getD st []).getD i (0, 0)).1 + y,
        ((p.positions.getD st []).getD i (0, 0)).2 + x) = (q.1 + y, q.2 + x)
      rw [List.getD_eq_getElem _ _ hi, hgi]
    rw [hcell]
    exact (cellBlocked_iff_not_free _ _ _).mp hblocked
  · rintro ⟨idx, hidx, hnfree⟩
    have hlt : idx < (p.positions.getD st []).length := by omega
    refine ⟨(p.positions.getD st []).getD idx (0, 0), ?_, ?_⟩
    · rw [List.getD_eq_getElem _ _ hlt]
      exact List.getElem_mem hlt
    · exact (cellBlocked_iff_not_free _ _ _).mpr hnfree

/-- Witness for C8 at a concrete piece and candidate position. -/
theorem collides_iff_spec_witness :
    pO.collides_with_environment 5 20 0 = true ↔
      ∃ idx, idx < 4 ∧ ¬ cellFreeSpec pO.environment (pieceCell pO 5 20 0 idx) :=
  collides_iff_spec pO 5 20 0 (by decide)

/-- C10: whenever the four bounds guards of the collision test pass, the
truncated indices fall inside the actual row and column lists of a 20×10
board, so the only grid read in `collides_with_environment` is in bounds
and the cell test reduces to the occupancy check. -/
theorem cell_access_guarded (g : Grid) (i j : Int)
    (hrows : g.grid.length = GRID_ROWS)
    (hcols : ∀ r ∈ g.grid, r.length = GRID_COLS)
    (hb : ¬(i < 0 ∨ (GRID_ROWS : Int) ≤ i ∨ j < 0 ∨ (GRID_COLS : Int) ≤ j)) :
    i.toNat < g.grid.length ∧
    j.toNat < (g.grid.getD i.toNat []).length ∧
    cellBlocked g i j = decide (g.cell i.toNat j.toNat ≠ Tetrimonos.BLANK) := by
  push_neg at hb
  obtain ⟨h1, h2, h3, h4⟩ := hb
  simp only [GRID_ROWS, GRID_COLS] at h2 h4 hrows hcols
  have hi : i.toNat < g.grid.length := by omega
  have hrow : g.grid.getD i.toNat [] = g.grid[i.toNat] := List.getD_eq_getElem _ _ hi
  have hj : j.toNat < (g.grid.getD i.toNat []).length := by
    rw [hrow, hcols _ (List.getElem_mem hi)]
    omega
  refine ⟨hi, hj, ?_⟩
  simp [cellBlocked, show ¬(i < 0) by omega,
    show ¬((GRID_ROWS : Int) ≤ i) by simp [GRID_ROWS]; omega,
    show ¬(j < 0) by omega,
    show ¬((GRID_COLS : Int) ≤ j) by simp [GRID_COLS]; omega]

/-- Witness for C10 at a concrete in-bounds coordinate of the empty
board. -/
theorem cell_access_guarded_witness :
    (3 : Int).toNat < Grid.new.grid.length ∧
    (4 : Int).toNat < (Grid.new.grid.getD (3 : Int).toNat []).length ∧
    cellBlocked Grid.new 3 4 =
      decide (Grid.new.cell (3 : Int).toNat (4 : Int).toNat ≠ Tetrimonos.BLANK) :=
  cell_access_guarded Grid.new 3 4 (by decide) (by decide) (by decide)

end TetrisRs
